import Mathlib

/-!
Verification of the diff-to-entry reconstruction and markup-normalization
core of `walk-packages-for-changelog.py`.

Strings are modelled as `List Char` (obtained from Lean string literals via
`String.data`).  The regex-based substitutions of the source are embedded as
explicit left-to-right, non-overlapping scans, which is exactly the semantics
of Python's `re.sub` for these patterns.
-/

namespace Changelog

/-- The backtick character, written via its code point so that it only ever
appears inside string literals elsewhere in this file. -/
def tick : Char := '\x60'

/-- Python `str.lstrip()`: drop leading whitespace. -/
def lstrip (l : List Char) : List Char := l.dropWhile Char.isWhitespace

/-- Python `str.rstrip()`: drop trailing whitespace. -/
def rstrip (l : List Char) : List Char :=
  (l.reverse.dropWhile Char.isWhitespace).reverse

/-- Python `str.strip()`: drop whitespace at both ends. -/
def strip (l : List Char) : List Char := rstrip (lstrip l)

/-- `listStartsWith p l` is true iff `p` is an initial segment of `l`
(used to embed the anchored regex match `re.match(r'^\* Contributors: ...')`). -/
def listStartsWith : List Char → List Char → Bool
  | [], _ => true
  | _ :: _, [] => false
  | p :: ps, c :: cs => p = c && listStartsWith ps cs

/-- Python `s.split(',')`: split on every comma; the empty string yields one
empty field, matching CPython's behavior. -/
def splitComma : List Char → List (List Char)
  | [] => [[]]
  | c :: rest =>
    if c = ',' then [] :: splitComma rest
    else
      match splitComma rest with
      | [] => [[c]]
      | g :: gs => (c :: g) :: gs

/-- Embedding of `get_contrib_from_line` (source lines 68-82): if the line
matches `^\* Contributors: (.*)`, split the captured tail on commas and strip
each name; otherwise return the empty list. -/
def get_contrib_from_line (l : List Char) : List (List Char) :=
  if listStartsWith ("* Contributors: ".data) l then
    (splitComma (l.drop ("* Contributors: ".data).length)).map strip
  else []

/-!
## The markup normalizer `fix_line` (source lines 102-172)
-/

/-- Stage 1 of `fix_line` (source line 109): the substitution
`re.sub(r'<tick>(?:([^<tick>])|$)', r'<tick><tick>\1', s)`.
A backtick matches only when followed by a non-backtick character (which is
consumed with it) or by the end of the string; when it matches, the backtick
is doubled.  A backtick followed by another backtick does not match and the
scan resumes at the next character. -/
def double_and_triple_ticks : List Char → List Char
  | [] => []
  | [c] => if c = tick then [tick, tick] else [c]
  | c :: c2 :: rest2 =>
    if c = tick then
      if c2 = tick then tick :: double_and_triple_ticks (c2 :: rest2)
      else tick :: tick :: c2 :: double_and_triple_ticks rest2
    else c :: double_and_triple_ticks (c2 :: rest2)

/-- Stage 2 of `fix_line` (source line 112): `re.sub` replacing every
(left-to-right, non-overlapping) run of three consecutive backticks by two. -/
def double_ticks : List Char → List Char
  | c :: c2 :: c3 :: rest3 =>
    if c = tick && c2 = tick && c3 = tick then tick :: tick :: double_ticks rest3
    else c :: double_ticks (c2 :: c3 :: rest3)
  | c :: rest => c :: double_ticks rest
  | [] => []

/-- Stage 3 of `fix_line` (source line 115): the substitution
`re.sub(r'<tick>_(?:([^_])|$)', r'<tick>__\1', s)`: a backtick-underscore pair
followed by a non-underscore (consumed) or by the end of the string gets its
underscore doubled. -/
def double_underscore : List Char → List Char
  | c :: c2 :: c3 :: rest3 =>
    if c = tick && c2 = '_' then
      if c3 = '_' then tick :: double_underscore (c2 :: c3 :: rest3)
      else tick :: '_' :: '_' :: c3 :: double_underscore rest3
    else c :: double_underscore (c2 :: c3 :: rest3)
  | [c, c2] => if c = tick && c2 = '_' then [tick, '_', '_'] else [c, c2]
  | [c] => [c]
  | [] => []

/-- The five states of the character-level rewriter of `fix_line`
(source lines 120-124). -/
inductive TickState where
  | regular
  | oneLeading
  | twoLeading
  | oneTrailing
  | twoTrailing
deriving DecidableEq

/-- The state-machine loop of `fix_line` (source lines 129-171), with the
output string `out` and the pending span `buf` (`tickbuf`) threaded through.
At the end of input a non-empty pending span is flushed as a double-backtick
literal.  Note that in state `oneTrailing` a non-backtick character is dropped,
exactly as in the source. -/
def runMachine : TickState → List Char → List Char → List Char → List Char
  | _, out, buf, [] => if buf ≠ [] then out ++ [tick, tick] ++ buf ++ [tick, tick] else out
  | TickState.regular, out, buf, c :: cs =>
    if c = tick then runMachine TickState.oneLeading out buf cs
    else runMachine TickState.regular (out ++ [c]) buf cs
  | TickState.oneLeading, out, buf, c :: cs =>
    if c = tick then runMachine TickState.twoLeading out buf cs
    else runMachine TickState.regular (out ++ [tick, c]) buf cs
  | TickState.twoLeading, out, buf, c :: cs =>
    if c = tick then
      if buf = [] then runMachine TickState.twoLeading (out ++ [tick]) buf cs
      else runMachine TickState.oneTrailing out buf cs
    else runMachine TickState.twoLeading out (buf ++ [c]) cs
  | TickState.oneTrailing, out, buf, c :: cs =>
    if c = tick then runMachine TickState.twoTrailing out buf cs
    else runMachine TickState.regular (out ++ [tick, tick] ++ buf ++ [tick]) [] cs
  | TickState.twoTrailing, out, buf, c :: cs =>
    if c = '_' then runMachine TickState.regular (out ++ [tick] ++ buf ++ [tick, '_']) [] cs
    else runMachine TickState.regular (out ++ [tick, tick] ++ buf ++ [tick, tick, c]) [] cs

/-- Stage 4 of `fix_line`: run the five-state rewriter from the initial state
with empty output and empty span buffer. -/
def tick_machine (l : List Char) : List Char :=
  runMachine TickState.regular [] [] l

/-- Embedding of `fix_line` (source lines 102-172): fast path when the string
contains no backtick, otherwise the four stages in order followed by
`rstrip`. -/
def fix_line (l : List Char) : List Char :=
  if tick ∈ l then
    rstrip (tick_machine (double_underscore (double_ticks (double_and_triple_ticks l))))
  else l

/-- Number of backticks in a string. -/
def tickCount : List Char → Nat
  | [] => 0
  | c :: rest => (if c = tick then 1 else 0) + tickCount rest

/-- Number of maximal runs of consecutive backticks in a string, counted at
each backtick that is not followed by another backtick. -/
def tickRuns : List Char → Nat
  | [] => 0
  | c :: rest =>
    if c = tick then
      (match rest with
       | [] => 1
       | c2 :: _ => if c2 = tick then 0 else 1) + tickRuns rest
    else tickRuns rest

/-!
## The entry reconstructor: the scan loop of `get_changelog`
(source lines 272-321; the subprocess invocation and its failure path,
lines 240-249, are outside this pure core)
-/

/-- Python `len(line) == 0 or line.isspace()` (source line 276). -/
def isBlankLine (l : List Char) : Bool := l.isEmpty || l.all Char.isWhitespace

/-- Matching the interpolated `old_version` label against the line, as the
regex `' %s \\(...' % (old_version)` does (source line 283): the label is
spliced into the pattern verbatim, so each of its characters is matched as a
regex atom.  This embedding is faithful for labels built from regex-literal
characters plus `.`, which matches any character — exactly the alphabet of
version tags this program is run on.  Returns the rest of the line after the
label on success. -/
def matchLabel : List Char → List Char → Option (List Char)
  | [], rest => some rest
  | _ :: _, [] => none
  | p :: ps, c :: cs => if p = '.' ∨ p = c then matchLabel ps cs else none

/-- Consume exactly `n` decimal digits, returning the rest of the line. -/
def takeDigits : Nat → List Char → Option (List Char)
  | 0, l => some l
  | _ + 1, [] => none
  | n + 1, c :: rest => if c.isDigit then takeDigits n rest else none

/-- The `\([0-9]{4}-[0-9]{2}-[0-9]{2}\)` part of the version-boundary regex,
applied after the opening parenthesis; anything may follow the closing
parenthesis because `re.match` only anchors at the start. -/
def matchDateClose (l : List Char) : Bool :=
  match takeDigits 4 l with
  | some ('-' :: r2) =>
    (match takeDigits 2 r2 with
     | some ('-' :: r3) =>
       (match takeDigits 2 r3 with
        | some (')' :: _) => true
        | _ => false)
     | _ => false)
  | _ => false

/-- The version-boundary test of source line 283:
`re.match(r' %s \([0-9]{4}-[0-9]{2}-[0-9]{2}\)' % (old_version), line)`.
`re.match` anchors only at the start of the line, so trailing content after
the closing parenthesis is accepted. -/
def isVersionBoundary (old_version line : List Char) : Bool :=
  match line with
  | ' ' :: rest =>
    (match matchLabel old_version rest with
     | some (' ' :: '(' :: r) => matchDateClose r
     | _ => false)
  | _ => false

/-- The `star_fix_re` substitution (source lines 238, 298, 301):
`re.sub(r'\*\.', r'\*.', s)` puts a backslash back in front of every literal
`*.` sequence. -/
def star_fix : List Char → List Char
  | '*' :: '.' :: rest => '\\' :: '*' :: '.' :: star_fix rest
  | c :: rest => c :: star_fix rest
  | [] => []

/-- The mutable scan state of the loop in `get_changelog`:
`changelog_list`, `contributors` and `line_buffer` (source lines 272-274). -/
structure ScanState where
  changelog_list : List (List Char)
  contributors : List (List Char)
  line_buffer : List Char
deriving DecidableEq

/-- Flushing the line buffer (source lines 291-296 and 303-309): if the
buffered text matches the contributor pattern, extend the contributor list;
otherwise append `fix_line` of the buffer to the changelog list. -/
def flushBuffer (st : ScanState) : ScanState :=
  let current_contrib := get_contrib_from_line st.line_buffer
  if current_contrib ≠ [] then
    { st with contributors := st.contributors ++ current_contrib, line_buffer := [] }
  else
    { st with changelog_list := st.changelog_list ++ [fix_line st.line_buffer],
              line_buffer := [] }

/-- The scan loop of `get_changelog` (source lines 275-301): skip blank
lines, stop at the version boundary, skip one-character lines, start a new
buffer on a bullet-start line (flushing the previous buffer first), fold
continuation lines into a non-empty buffer, ignore everything else. -/
def scanLines (old_version : List Char) : List (List Char) → ScanState → ScanState
  | [], st => st
  | line :: rest, st =>
    if isBlankLine line then scanLines old_version rest st
    else if isVersionBoundary old_version line then st
    else if line.length = 1 then scanLines old_version rest st
    else if line.take 2 = [' ', '*'] then
      let st' := if st.line_buffer ≠ [] then flushBuffer st else st
      scanLines old_version rest { st' with line_buffer := star_fix (lstrip line) }
    else if line.take 2 = [' ', ' '] then
      if st.line_buffer ≠ [] then
        scanLines old_version rest
          { st with line_buffer := st.line_buffer ++ ' ' :: star_fix (lstrip line) }
      else scanLines old_version rest st
    else scanLines old_version rest st

/-- The scan state after the loop and the final buffer flush
(source lines 275-309). -/
def finalState (old_version : List Char) (lines : List (List Char)) : ScanState :=
  let st := scanLines old_version lines ⟨[], [], []⟩
  if st.line_buffer ≠ [] then flushBuffer st else st

/-- Python `set(...)`: keep one copy of each name (the sort below makes the
retained position irrelevant, as for Python's `sorted(set(...))`). -/
def dedupNames : List (List Char) → List (List Char)
  | [] => []
  | x :: rest => if x ∈ rest then dedupNames rest else x :: dedupNames rest

/-- Python string `<`, i.e. lexicographic comparison by code point. -/
def listCharLe : List Char → List Char → Bool
  | [], _ => true
  | _ :: _, [] => false
  | a :: as, b :: bs => if a < b then true else if b < a then false else listCharLe as bs

/-- Insertion step of the sort used to model Python `sorted`. -/
def insertName (x : List Char) : List (List Char) → List (List Char)
  | [] => [x]
  | y :: ys => if listCharLe x y then x :: y :: ys else y :: insertName x ys

/-- Python `sorted`, modelled as insertion sort by `listCharLe`. -/
def sortNames (l : List (List Char)) : List (List Char) := l.foldr insertName []

/-- Python `', '.join(...)`. -/
def joinNames : List (List Char) → List Char
  | [] => []
  | [x] => x
  | x :: y :: rest => x ++ ',' :: ' ' :: joinNames (y :: rest)

/-- The synthesized contributor entry of source line 317:
`'* Contributors: ' + ', '.join(sorted(set(contributors)))`. -/
def synthContribEntry (contribs : List (List Char)) : List Char :=
  ("* Contributors: ".data) ++ joinNames (sortNames (dedupNames contribs))

/-- The entry-sequence core of `get_changelog` (source lines 272-317): scan
the diff lines, flush the last buffer, return `none` (the source's
`None, None`) when `changelog_list` is empty, and otherwise append the
synthesized contributor entry when the contributor list is non-empty.  The
returned pair is the entry sequence plus the raw contributor list. -/
def get_changelog_entries (old_version : List Char) (lines : List (List Char)) :
    Option (List (List Char) × List (List Char)) :=
  let st := finalState old_version lines
  if st.changelog_list = [] then none
  else
    some ((if st.contributors ≠ [] then
            st.changelog_list ++ [synthContribEntry st.contributors]
           else st.changelog_list),
          st.contributors)

/-- Python `'\n'.join(...)`. -/
def joinLines : List (List Char) → List Char
  | [] => []
  | [x] => x
  | x :: y :: rest => x ++ '\n' :: joinLines (y :: rest)

/-- The full result of `get_changelog` (source lines 318-321): the cooked
changelog string (entries joined by newlines, plus a trailing
`'\n\n\n'`) together with the contributor list. -/
def get_changelog (old_version : List Char) (lines : List (List Char)) :
    Option (List Char × List (List Char)) :=
  match get_changelog_entries old_version lines with
  | none => none
  | some (entries, contribs) => some (joinLines entries ++ ("\n\n\n".data), contribs)

/-!
## Theorems about the markup normalizer
-/

/-- C4: `fix_line` applied to the input line `Fix `foo <bar>`_ thing` produces
exactly `Fix `foo <bar>`__ thing`: the named hyperlink span (single trailing
underscore) is rewritten to anonymous form (double trailing underscore) with
all other characters unchanged. -/
theorem fix_line_named_hyperlink_anon :
    fix_line ("Fix `foo <bar>`_ thing".data) = ("Fix `foo <bar>`__ thing".data) := by
  decide

/-- C6: `fix_line` applied to `Use ``foo`` here` (an already-correct
double-backtick literal span) returns it byte-for-byte identical. -/
theorem fix_line_literal_identity :
    fix_line ("Use ``foo`` here".data) = ("Use ``foo`` here".data) := by
  decide

/-- C9: re-running `fix_line` on its own output produces no further change for
the two representative fixture texts; in particular the already-anonymous
hyperlink span in the output of the first fixture is not re-doubled. -/
theorem fix_line_idempotent_fixtures :
    fix_line (fix_line ("Fix `foo <bar>`_ thing".data)) =
      fix_line ("Fix `foo <bar>`_ thing".data) ∧
    fix_line (fix_line ("Use ``foo`` here".data)) =
      fix_line ("Use ``foo`` here".data) := by
  constructor <;> decide

/-- C10: for every entry text containing no backtick character, `fix_line`
returns its input exactly unchanged (fast-path identity), including any
leading or trailing whitespace. -/
theorem fix_line_no_tick_identity (l : List Char) (h : tick ∉ l) :
    fix_line l = l := by
  simp [fix_line, h]

/-- Witness for C10 at a concrete input with leading and trailing
whitespace. -/
theorem fix_line_no_tick_identity_witness :
    tick ∉ ("  Fix the walker  ".data) ∧
    fix_line ("  Fix the walker  ".data) = ("  Fix the walker  ".data) :=
  ⟨by decide, fix_line_no_tick_identity ("  Fix the walker  ".data) (by decide)⟩

/-- C7 counterexample: stage 1 does not double every backtick.  On the input
`a``b` the stage-1 output contains three backticks, not `2 * 2 = 4`: in a run
of consecutive backticks only the last one is doubled. -/
theorem stage1_not_plain_doubling :
    ¬ (tickCount (double_and_triple_ticks ("a``b".data)) =
        2 * tickCount ("a``b".data)) := by
  decide

/-- C7 amended: stage 1 doubles a backtick exactly when it is not followed by
another backtick, so each maximal run of `n` consecutive backticks gains
exactly one backtick (becoming `n + 1`); in particular a correct
double-backtick delimiter contains three (not four) consecutive backticks
after stage 1, which the stage-2 triple-collapse then repairs back to two. -/
theorem stage1_run_plus_one :
    (∀ l : List Char,
      tickCount (double_and_triple_ticks l) = tickCount l + tickRuns l) ∧
    double_and_triple_ticks ("Use ``foo`` here".data) =
      ("Use ```foo``` here".data) ∧
    double_ticks (double_and_triple_ticks ("Use ``foo`` here".data)) =
      ("Use ``foo`` here".data) := by
  refine ⟨?_, by decide, by decide⟩
  intro l
  induction l using double_and_triple_ticks.induct with
  | case1 => rfl
  | case2 => decide
  | case3 c hc =>
    simp [double_and_triple_ticks, tickCount, tickRuns, hc]
  | case4 rest2 ih =>
    simp [double_and_triple_ticks, tickCount, tickRuns] at *
    omega
  | case5 c2 rest2 hc ih =>
    simp [double_and_triple_ticks, tickCount, tickRuns, hc] at *
    omega
  | case6 c c2 rest2 hc ih =>
    simp [double_and_triple_ticks, tickCount, tickRuns, hc] at *
    omega

/-!
## Theorems about the entry reconstructor
-/

/-- C5: given the three diff lines ` * First part`, `  second part`,
` * Second entry`, the reconstruction yields exactly the two logical entries
`* First part second part` and `* Second entry`, in that order: the
continuation line is folded into the directly preceding bullet joined by a
single space with leading whitespace stripped. -/
theorem continuation_folding_two_entries :
    get_changelog_entries ("1.2.3".data)
      [" * First part".data, "  second part".data, " * Second entry".data] =
      some (["* First part second part".data, "* Second entry".data], []) := by
  decide

/-- C3: the bullet-start line ` * Contributors: Bob, Alice, Bob` is diverted
into the contributor list (names split on commas and whitespace-trimmed);
after deduplication and sorting the set is `{Alice, Bob}`; the line itself
never appears in the output entry sequence; and the single synthesized entry
appended at the very end reads `* Contributors: Alice, Bob`. -/
theorem contrib_line_diverted_sorted :
    get_contrib_from_line ("* Contributors: Bob, Alice, Bob".data) =
      ["Bob".data, "Alice".data, "Bob".data] ∧
    sortNames (dedupNames ["Bob".data, "Alice".data, "Bob".data]) =
      ["Alice".data, "Bob".data] ∧
    get_changelog_entries ("1.2.3".data)
      [" * Some fix".data, " * Contributors: Bob, Alice, Bob".data] =
      some (["* Some fix".data, "* Contributors: Alice, Bob".data],
            ["Bob".data, "Alice".data, "Bob".data]) ∧
    ("* Contributors: Bob, Alice, Bob".data) ∉
      ["* Some fix".data, "* Contributors: Alice, Bob".data] :=
  ⟨by decide, by decide, by decide, by decide⟩

/-- C1 counterexample: for a diff whose only bullet-start line is a
contributor line, `get_changelog_entries` returns the `NO_ENTRIES` sentinel
(`none`), not a one-element sequence with the synthesized contributor entry:
the emptiness check of `changelog_list` runs before the contributor entry is
appended. -/
theorem contrib_only_returns_none :
    get_changelog_entries ("1.2.3".data) [" * Contributors: Alice".data] = none := by
  decide

/-- C1 amended: the `NO_ENTRIES` sentinel is returned exactly when the
non-contributor entry list is empty after scanning — this check runs before
the contributor entry is appended — and when the entry list and the
contributor list are both non-empty, the synthesized sorted contributor entry
is appended as the final element of the output sequence. -/
theorem no_entries_check_precedes_contrib (old_version : List Char)
    (lines : List (List Char)) :
    (get_changelog_entries old_version lines = none ↔
      (finalState old_version lines).changelog_list = []) ∧
    ((finalState old_version lines).changelog_list ≠ [] →
     (finalState old_version lines).contributors ≠ [] →
     get_changelog_entries old_version lines =
       some ((finalState old_version lines).changelog_list ++
               [synthContribEntry (finalState old_version lines).contributors],
             (finalState old_version lines).contributors)) := by
  by_cases h : (finalState old_version lines).changelog_list = []
  · refine ⟨by simp [get_changelog_entries, h], fun h1 _ => absurd h h1⟩
  · refine ⟨by simp [get_changelog_entries, h], fun _ h2 => ?_⟩
    simp [get_changelog_entries, h, h2]

/-- Witness for C1 amended: a diff with one regular entry and one contributor
line yields that entry followed by the synthesized contributor entry. -/
theorem no_entries_check_precedes_contrib_witness :
    get_changelog_entries ("1.2.3".data)
      [" * Fix a".data, " * Contributors: Alice".data] =
      some (["* Fix a".data, "* Contributors: Alice".data], ["Alice".data]) := by
  have h := (no_entries_check_precedes_contrib ("1.2.3".data)
      [" * Fix a".data, " * Contributors: Alice".data]).2 (by decide) (by decide)
  rw [h]
  decide

/-- C2 counterexample: with old version `1.2.3`, the scanned line
` 1x2y3 (2024-01-01) tail` does not equal ` 1.2.3 (YYYY-MM-DD)` for any date
(its first seven characters already differ from ` 1.2.3 `), yet scanning stops
there and the following bullet-start line ` * Second` is excluded from the
output: the source matches the boundary with `re.match`, which anchors only
at the start of the line and interpolates the label as a regex in which `.`
matches any character. -/
theorem boundary_loose_match_cex :
    get_changelog_entries ("1.2.3".data)
      [" * First".data, " 1x2y3 (2024-01-01) tail".data, " * Second".data] =
      some (["* First".data], []) ∧
    (" 1x2y3 (2024-01-01) tail".data).take 7 ≠ (" 1.2.3 ".data) :=
  ⟨by decide, by decide⟩

/-- Helper for C2: once the scan reaches a version-boundary line, the lines
after it contribute nothing — scanning the lines up to and including the
boundary from any state gives the same result. -/
theorem scanLines_of_boundary (old_version line : List Char)
    (hv : isVersionBoundary old_version line = true)
    (hb : isBlankLine line = false) :
    ∀ (pre post : List (List Char)) (st : ScanState),
      scanLines old_version (pre ++ line :: post) st =
        scanLines old_version (pre ++ [line]) st := by
  intro pre
  induction pre with
  | nil =>
    intro post st
    simp [scanLines, hv, hb]
  | cons p ps ih =>
    intro post st
    simp only [List.cons_append, scanLines]
    by_cases h1 : isBlankLine p = true
    · simp only [h1, if_true]
      exact ih post st
    · by_cases h2 : isVersionBoundary old_version p = true
      · simp [h1, h2]
      · by_cases h3 : p.length = 1
        · simp only [h1, h2, h3, if_true, if_false, Bool.false_eq_true]
          simp
          exact ih post st
        · by_cases h4 : p.take 2 = [' ', '*']
          · simp [h1, h2, h3, h4]
            exact ih post _
          · by_cases h5 : p.take 2 = [' ', ' ']
            · by_cases h6 : st.line_buffer ≠ []
              · simp [h1, h2, h3, h4, h5, h6]
                exact ih post _
              · simp [h1, h2, h3, h4, h5, h6]
                exact ih post st
            · simp [h1, h2, h3, h4, h5]
              exact ih post st

/-- C2 amended: when a scanned line matches the version-boundary pattern
` <oldVersionLabel> (YYYY-MM-DD)` as a prefix — with the label interpolated
into the regex, so `.` in the label matches any character and trailing content
after the date is accepted — the scan flushes the open buffer at the end and
stops, so all content after that line, including further bullet-start lines,
is excluded from the output. -/
theorem boundary_line_truncates (old_version line : List Char)
    (pre post : List (List Char))
    (hv : isVersionBoundary old_version line = true)
    (hb : isBlankLine line = false) :
    get_changelog_entries old_version (pre ++ line :: post) =
      get_changelog_entries old_version (pre ++ [line]) := by
  unfold get_changelog_entries finalState
  rw [scanLines_of_boundary old_version line hv hb pre post ⟨[], [], []⟩]

/-- Witness for C2 amended: an exactly matching boundary line with a later
bullet-start line; the result equals that of the input truncated after the
boundary. -/
theorem boundary_line_truncates_witness :
    get_changelog_entries ("1.2.3".data)
      ([" * A".data] ++ (" 1.2.3 (2024-01-01)".data) :: [" * B".data]) =
      get_changelog_entries ("1.2.3".data)
        ([" * A".data] ++ [" 1.2.3 (2024-01-01)".data]) :=
  boundary_line_truncates ("1.2.3".data) (" 1.2.3 (2024-01-01)".data)
    [" * A".data] [" * B".data] (by decide) (by decide)

/-- C8 counterexample: a contributor bullet-start line directly followed by a
continuation line does not extract the same names as with the continuation
absent: ` * Contributors: Alice` followed by `  Bob` yields the single name
`Alice Bob`, while without the continuation it yields `Alice`. -/
theorem contrib_continuation_folded_cex :
    get_changelog_entries ("1.2.3".data)
      [" * Fix thing".data, " * Contributors: Alice".data, "  Bob".data] =
      some (["* Fix thing".data, "* Contributors: Alice Bob".data],
            ["Alice Bob".data]) ∧
    get_changelog_entries ("1.2.3".data)
      [" * Fix thing".data, " * Contributors: Alice".data] =
      some (["* Fix thing".data, "* Contributors: Alice".data], ["Alice".data]) ∧
    (["Alice Bob".data] : List (List Char)) ≠ ["Alice".data] :=
  ⟨by decide, by decide, by decide⟩

/-- C8 amended: the contributor-pattern match is applied only when a buffer is
flushed, after continuation lines have been folded into it, so a contributor
line directly followed by continuation lines behaves exactly as if the
continuations had been joined into it by single spaces. -/
theorem contrib_continuation_folded :
    get_changelog_entries ("1.2.3".data)
      [" * Fix thing".data, " * Contributors: Alice".data, "  Bob".data] =
      get_changelog_entries ("1.2.3".data)
        [" * Fix thing".data, " * Contributors: Alice Bob".data] := by
  decide

end Changelog
